import Mathlib

/-!
Verification of the houseHunter core: the feature-to-score rubric
(`app/models.py`) and the property-cache address normalizer / matcher
(`app/property_cache.py`, `app/main.py`), shallowly embedded in Lean.

Conventions of the embedding:
* Python `int` is `Int`; Python `float` values that the code only compares,
  divides by powers of two, or passes through are modelled as `ℚ` (every
  float value is a rational, and the operations the code performs on them
  are exact in binary floating point: `x / 0.25`, `x > 0`, `+ 0.5 * n`).
* Python dicts used as ordered maps (`features.appliances`, the breakdown
  dict) are association lists in insertion order; dict-key uniqueness is
  the `Nodup` hypothesis where a theorem needs it.
* The breakdown dict maps category names to human-readable strings whose
  leading signed number is the category's contribution; the embedding
  keeps the category name and that encoded integer.
* Fallible operations return `Option`.
-/

/-- Truncation toward zero, Python's `int()` on a rational value. -/
def ratTrunc (q : ℚ) : Int := Int.tdiv q.num (q.den : Int)

/-- Python floor division `//` on integers. -/
def pyFloorDiv (a b : Int) : Int := Int.fdiv a b

/-- `quality_scores.get(features.bathroom_quality, (1, "normal"))`, the
multiplier component (models.py lines 83-88). -/
def qualityMultiplier (q : String) : Int :=
  if q = "modern" then 2
  else if q = "normal" then 1
  else if q = "needs_updates" then -1
  else 1

/-- `privacy_scores.get(features.privacy, (1, "Normal privacy"))`, the score
component (models.py lines 171-177). -/
def privacyScoreOf (p : String) : Int :=
  if p = "very_private" then 3
  else if p = "private" then 2
  else if p = "normal" then 1
  else if p = "not_private" then -1
  else 1

/-- `noise_scores.get(features.noise_level, (0, "Normal noise"))`, the score
component (models.py lines 182-187). -/
def noiseScoreOf (n : String) : Int :=
  if n = "quiet" then 1
  else if n = "normal" then 0
  else if n = "loud" then -1
  else 0

/-- `HouseFeatures` (models.py lines 5-25), with the pydantic defaults. -/
structure HouseFeatures where
  garage_cars : Int := 0
  bathrooms : Int := 1
  bathroom_quality : String := "normal"
  bedrooms : Int := 1
  square_feet : Int := 0
  lot_acres : ℚ := 0
  nice_backyard : Bool := false
  curb_appeal : Bool := false
  appliances : List (String × String) := []
  basement : Int := 0
  privacy : String := "normal"
  noise_level : String := "normal"
  has_deck : Bool := false
  patio_potential : Bool := false
  has_pool : Bool := false
  near_recreation : Bool := false
  walking_shopping : Bool := false
  has_hoa : Bool := false
  hoa_monthly_fee : Int := 0

/-- `all_appliances` (models.py line 134). -/
def allAppliances : List String :=
  ["dishwasher", "range", "oven", "fridge", "washer", "dryer", "microwave"]

/-- Per-entry contribution of the appliance loop (models.py lines 139-145):
`modern` adds 2, `old` adds 1, anything else adds nothing. -/
def applBonus (condition : String) : Int :=
  if condition = "modern" then 2 else if condition = "old" then 1 else 0

/-- The appliance category score (models.py lines 132-156): sum the bonus of
each present appliance, then subtract 2 for each canonical appliance whose
key is absent from the map. -/
def applianceScore (appliances : List (String × String)) : Int :=
  let presentScore := (appliances.map fun kv => applBonus kv.2).sum
  let missing := allAppliances.filter fun a => decide (a ∉ appliances.map Prod.fst)
  presentScore - 2 * (missing.length : Int)

/-- One step of `calculate_score`'s accumulation: record the category's
contribution in the breakdown and add it to the running total. -/
def addCat (name : String) (v : Int) (st : Int × List (String × Int)) :
    Int × List (String × Int) :=
  (st.1 + v, st.2 ++ [(name, v)])

/-- The `else` branches of `calculate_score`: record a `+0` breakdown entry
and leave the total unchanged. -/
def skipCat (name : String) (st : Int × List (String × Int)) :
    Int × List (String × Int) :=
  (st.1, st.2 ++ [(name, 0)])

/-- `calculate_score` (models.py lines 61-242).  The state is the pair
(total, breakdown); the breakdown keeps each category name with the integer
contribution its string encodes.  `0.25` is exactly `1/4`, and
`int(lot_acres / 0.25)` is `ratTrunc`. -/
def calculate_score (f : HouseFeatures) : Int × List (String × Int) :=
  let st : Int × List (String × Int) := (0, [])
  let st := if f.garage_cars > 0 then addCat "garage" f.garage_cars st
            else skipCat "garage" st
  let st := addCat "bathrooms" (f.bathrooms * qualityMultiplier f.bathroom_quality) st
  let st := addCat "bedrooms" f.bedrooms st
  let st := if f.square_feet > 0 then addCat "square_feet" (pyFloorDiv f.square_feet 500) st
            else skipCat "square_feet" st
  let st := if f.lot_acres > 0 then addCat "lot_size" (ratTrunc (f.lot_acres / (1/4))) st
            else skipCat "lot_size" st
  let st := if f.nice_backyard then addCat "backyard" 2 st else skipCat "backyard" st
  let st := if f.curb_appeal then addCat "curb_appeal" 1 st else skipCat "curb_appeal" st
  let st := addCat "appliances" (applianceScore f.appliances) st
  let st := if f.basement = 2 then addCat "basement" 2 st
            else if f.basement = 1 then addCat "basement" 1 st
            else skipCat "basement" st
  let st := addCat "privacy" (privacyScoreOf f.privacy) st
  let st := addCat "noise_level" (noiseScoreOf f.noise_level) st
  let st := if f.has_deck then addCat "deck" 1 st else skipCat "deck" st
  let st := if f.patio_potential then addCat "patio_potential" 2 st
            else skipCat "patio_potential" st
  let st := if f.has_pool then addCat "pool" 3 st else skipCat "pool" st
  let st := if f.near_recreation then addCat "near_recreation" 2 st
            else skipCat "near_recreation" st
  let st := if f.walking_shopping then addCat "walking_shopping" 2 st
            else skipCat "walking_shopping" st
  let st := if f.has_hoa then
              addCat "hoa" (-1 + -(pyFloorDiv f.hoa_monthly_fee 100)) st
            else skipCat "hoa" st
  st

/-- The fixed insertion order of the 17 breakdown categories. -/
def breakdownKeys : List String :=
  ["garage", "bathrooms", "bedrooms", "square_feet", "lot_size", "backyard",
   "curb_appeal", "appliances", "basement", "privacy", "noise_level", "deck",
   "patio_potential", "pool", "near_recreation", "walking_shopping", "hoa"]

/-- Invariant carried through `calculate_score`'s accumulation: the running
total is the sum of the contributions recorded so far, and the category
names recorded so far are exactly `ns` in order. -/
abbrev ScoreOK (st : Int × List (String × Int)) (ns : List String) : Prop :=
  st.1 = (st.2.map Prod.snd).sum ∧ st.2.map Prod.fst = ns

theorem scoreOK_addCat (name : String) (v : Int) (st : Int × List (String × Int))
    (ns : List String) (h : ScoreOK st ns) : ScoreOK (addCat name v st) (ns ++ [name]) := by
  obtain ⟨h1, h2⟩ := h
  refine ⟨?_, ?_⟩ <;> simp [addCat, h1, h2]

theorem scoreOK_skipCat (name : String) (st : Int × List (String × Int))
    (ns : List String) (h : ScoreOK st ns) : ScoreOK (skipCat name st) (ns ++ [name]) := by
  obtain ⟨h1, h2⟩ := h
  refine ⟨?_, ?_⟩ <;> simp [skipCat, h1, h2]

theorem scoreOK_branch (c : Prop) [Decidable c] (name : String) (v : Int)
    (st : Int × List (String × Int)) (ns : List String) (h : ScoreOK st ns) :
    ScoreOK (if c then addCat name v st else skipCat name st) (ns ++ [name]) := by
  split
  · exact scoreOK_addCat name v st ns h
  · exact scoreOK_skipCat name st ns h

theorem scoreOK_branch3 (c2 c1 : Prop) [Decidable c2] [Decidable c1] (name : String)
    (v2 v1 : Int) (st : Int × List (String × Int)) (ns : List String) (h : ScoreOK st ns) :
    ScoreOK (if c2 then addCat name v2 st else if c1 then addCat name v1 st
             else skipCat name st) (ns ++ [name]) := by
  split
  · exact scoreOK_addCat name v2 st ns h
  · exact scoreOK_branch c1 name v1 st ns h

/-- C1: for every FeatureSet, `calculate_score`'s total equals the sum of the
17 per-category integer contributions encoded in the breakdown, and the
breakdown's insertion order is the fixed rubric order garage, bathrooms,
bedrooms, square footage, lot size, backyard, curb appeal, appliances,
basement, privacy, noise, deck, patio potential, pool, near recreation,
walking to shopping, HOA. -/
theorem calculate_score_total_eq_sum_and_order (f : HouseFeatures) :
    (calculate_score f).1 = ((calculate_score f).2.map Prod.snd).sum ∧
    (calculate_score f).2.map Prod.fst = breakdownKeys := by
  have h0 : ScoreOK ((0 : Int), ([] : List (String × Int))) [] := ⟨rfl, rfl⟩
  have h1 := scoreOK_branch (f.garage_cars > 0) "garage" f.garage_cars _ _ h0
  have h2 := scoreOK_addCat "bathrooms" (f.bathrooms * qualityMultiplier f.bathroom_quality) _ _ h1
  have h3 := scoreOK_addCat "bedrooms" f.bedrooms _ _ h2
  have h4 := scoreOK_branch (f.square_feet > 0) "square_feet" (pyFloorDiv f.square_feet 500) _ _ h3
  have h5 := scoreOK_branch (f.lot_acres > 0) "lot_size" (ratTrunc (f.lot_acres / (1/4))) _ _ h4
  have h6 := scoreOK_branch (f.nice_backyard = true) "backyard" 2 _ _ h5
  have h7 := scoreOK_branch (f.curb_appeal = true) "curb_appeal" 1 _ _ h6
  have h8 := scoreOK_addCat "appliances" (applianceScore f.appliances) _ _ h7
  have h9 := scoreOK_branch3 (f.basement = 2) (f.basement = 1) "basement" 2 1 _ _ h8
  have h10 := scoreOK_addCat "privacy" (privacyScoreOf f.privacy) _ _ h9
  have h11 := scoreOK_addCat "noise_level" (noiseScoreOf f.noise_level) _ _ h10
  have h12 := scoreOK_branch (f.has_deck = true) "deck" 1 _ _ h11
  have h13 := scoreOK_branch (f.patio_potential = true) "patio_potential" 2 _ _ h12
  have h14 := scoreOK_branch (f.has_pool = true) "pool" 3 _ _ h13
  have h15 := scoreOK_branch (f.near_recreation = true) "near_recreation" 2 _ _ h14
  have h16 := scoreOK_branch (f.walking_shopping = true) "walking_shopping" 2 _ _ h15
  have h17 := scoreOK_branch (f.has_hoa = true) "hoa"
      (-1 + -(pyFloorDiv f.hoa_monthly_fee 100)) _ _ h16
  simpa [calculate_score, breakdownKeys] using h17

/-- The all-default `HouseFeatures`, written out as the claim does. -/
def defaultFeatures : HouseFeatures :=
  { garage_cars := 0, bathrooms := 1, bathroom_quality := "normal", bedrooms := 1,
    square_feet := 0, lot_acres := 0, nice_backyard := false, curb_appeal := false,
    appliances := [], basement := 0, privacy := "normal", noise_level := "normal",
    has_deck := false, patio_potential := false, has_pool := false,
    near_recreation := false, walking_shopping := false, has_hoa := false,
    hoa_monthly_fee := 0 }

/-- C2: `calculate_score` on the all-default/empty FeatureSet returns a
total of -11 (bathrooms 1, bedrooms 1, appliances -14, privacy +1, all
other categories 0). -/
theorem calculate_score_default_total :
    (calculate_score defaultFeatures).1 = -11 := by decide

/-- Python `dict` lookup on the appliance map (first binding of the key;
keys of a dict are unique). -/
def applLookup : List (String × String) → String → Option String
  | [], _ => none
  | (k, v) :: t, a => if k = a then some v else applLookup t a

/-- The specification's per-slot contribution: +2 present and modern,
+1 present and old, -2 absent, 0 for any other condition string. -/
def slotContribution (appliances : List (String × String)) (slot : String) : Int :=
  match applLookup appliances slot with
  | none => -2
  | some c => applBonus c

/-- The specification's reading of the appliance category: sum the 7
canonical slot contributions, plus the modern/old bonus of every
non-canonical appliance key. -/
def specApplianceScore (appliances : List (String × String)) : Int :=
  (allAppliances.map (slotContribution appliances)).sum +
    ((appliances.filter fun kv => decide (kv.1 ∉ allAppliances)).map
      (fun kv => applBonus kv.2)).sum

theorem applLookup_cons (k v a : String) (t : List (String × String)) :
    applLookup ((k, v) :: t) a = if k = a then some v else applLookup t a := rfl

theorem applLookup_eq_none (l : List (String × String)) (a : String)
    (h : a ∉ l.map Prod.fst) : applLookup l a = none := by
  induction l with
  | nil => rfl
  | cons kv t ih =>
    obtain ⟨k, v⟩ := kv
    simp only [List.map_cons, List.mem_cons, not_or] at h
    have hka : ¬ k = a := fun hh => h.1 hh.symm
    rw [applLookup_cons, if_neg hka]
    exact ih h.2

theorem slotContribution_cons_self (k v : String) (t : List (String × String)) :
    slotContribution ((k, v) :: t) k = applBonus v := by
  simp [slotContribution, applLookup_cons]

theorem slotContribution_cons_ne (k v c : String) (t : List (String × String))
    (hkc : ¬ k = c) : slotContribution ((k, v) :: t) c = slotContribution t c := by
  simp [slotContribution, applLookup_cons, hkc]

theorem slotSum_cons (cs : List String) (k v : String) (t : List (String × String))
    (hk : k ∉ t.map Prod.fst) :
    (cs.map (slotContribution ((k, v) :: t))).sum =
      (cs.map (slotContribution t)).sum + (cs.count k : Int) * (applBonus v + 2) := by
  induction cs with
  | nil => simp
  | cons c cs ih =>
    simp only [List.map_cons, List.sum_cons]
    by_cases hck : c = k
    · subst hck
      rw [slotContribution_cons_self]
      have h2 : slotContribution t c = -2 := by
        simp [slotContribution, applLookup_eq_none t c hk]
      rw [h2, ih, List.count_cons_self]
      push_cast
      ring
    · rw [slotContribution_cons_ne k v c t (fun hh => hck hh.symm), ih,
        List.count_cons_of_ne (fun hh => hck hh.symm)]
      ring

theorem missing_length_cons (cs : List String) (k : String) (ks : List String)
    (hk : k ∉ ks) :
    (cs.filter fun a => decide (a ∉ ks)).length =
      (cs.filter fun a => decide (a ∉ k :: ks)).length + cs.count k := by
  induction cs with
  | nil => simp
  | cons c cs ih =>
    by_cases hck : c = k
    · subst hck
      rw [List.count_cons_self, List.filter_cons, List.filter_cons,
        if_pos (by simpa using hk), if_neg (by simp)]
      simp only [List.length_cons]
      omega
    · have hd : (decide (c ∉ k :: ks)) = decide (c ∉ ks) :=
        decide_eq_decide.mpr (by simp [hck])
      rw [List.count_cons_of_ne (fun hh => hck hh.symm), List.filter_cons,
        List.filter_cons, hd]
      by_cases hc : c ∈ ks
      · rw [if_neg (by simpa using hc), if_neg (by simpa using hc)]
        omega
      · rw [if_pos (by simpa using hc), if_pos (by simpa using hc)]
        simp only [List.length_cons]
        omega

theorem applianceScore_eq_spec (l : List (String × String))
    (hnd : (l.map Prod.fst).Nodup) : applianceScore l = specApplianceScore l := by
  induction l with
  | nil => decide
  | cons kv t ih =>
    obtain ⟨k, v⟩ := kv
    simp only [List.map_cons, List.nodup_cons] at hnd
    obtain ⟨hk, hnd⟩ := hnd
    have ihe := ih hnd
    have hslot := slotSum_cons allAppliances k v t hk
    have hmiss := missing_length_cons allAppliances k (t.map Prod.fst) hk
    have hcount : (allAppliances.count k : Int) = if k ∈ allAppliances then 1 else 0 := by
      by_cases hm : k ∈ allAppliances
      · have h1 := List.nodup_iff_count_eq_one.mp (show allAppliances.Nodup by decide) k hm
        simp [hm, h1]
      · have h0 := List.count_eq_zero.mpr hm
        simp [hm, h0]
    simp only [applianceScore, specApplianceScore, List.map_cons, List.sum_cons,
      List.filter_cons] at ihe ⊢
    rw [hslot]
    have hmissInt : ((allAppliances.filter fun a => decide (a ∉ t.map Prod.fst)).length : Int) =
        ((allAppliances.filter fun a => decide (a ∉ k :: t.map Prod.fst)).length : Int) +
          (allAppliances.count k : Int) := by exact_mod_cast hmiss
    by_cases hmem : k ∈ allAppliances
    · rw [if_neg (by simpa using hmem)]
      simp only [hmem, if_true] at hcount
      rw [hcount] at hmissInt
      rw [hcount]
      simp only [one_mul]
      omega
    · rw [if_pos (by simpa using hmem)]
      simp only [hmem, if_false] at hcount
      rw [hcount] at hmissInt
      rw [hcount]
      simp only [zero_mul, List.map_cons, List.sum_cons]
      omega

/-- C3: the appliance category score is, over the 7 canonical slots, +2 per
modern, +1 per old, -2 per absent slot, with other condition strings
contributing 0 without counting as missing, and non-canonical keys
contributing only their modern/old bonus; concretely,
`{dishwasher: modern, range: old}` scores 2 + 1 - 5*2 = -7. -/
theorem applianceScore_spec_and_example :
    (∀ l : List (String × String), (l.map Prod.fst).Nodup →
      applianceScore l = specApplianceScore l) ∧
    applianceScore [("dishwasher", "modern"), ("range", "old")] = -7 := by
  refine ⟨applianceScore_eq_spec, by decide⟩

/-- Witness for C3 at a concrete appliance map. -/
theorem applianceScore_spec_witness :
    applianceScore [("fridge", "modern"), ("range", "broken")] =
      specApplianceScore [("fridge", "modern"), ("range", "broken")] :=
  applianceScore_spec_and_example.1 [("fridge", "modern"), ("range", "broken")] (by decide)

/-- C4: `calculate_score` is a pure total function — repeated calls return
the identical (total, breakdown) — and unrecognized bathroom_quality,
privacy, or noise_level strings fall back to their documented defaults
(multiplier 1, privacy +1, noise 0), so scoring such a FeatureSet equals
scoring it with the three enums set to "normal". -/
theorem calculate_score_unknown_enum_fallback (f : HouseFeatures) (q p n : String)
    (hq : q ∉ ["modern", "normal", "needs_updates"])
    (hp : p ∉ ["very_private", "private", "normal", "not_private"])
    (hn : n ∉ ["quiet", "normal", "loud"]) :
    calculate_score f = calculate_score f ∧
    calculate_score { f with bathroom_quality := q, privacy := p, noise_level := n } =
      calculate_score { f with bathroom_quality := "normal", privacy := "normal",
                               noise_level := "normal" } := by
  refine ⟨rfl, ?_⟩
  simp only [List.mem_cons, List.not_mem_nil, not_or, or_false] at hq hp hn
  have hq1 : qualityMultiplier q = 1 := by
    simp [qualityMultiplier, hq.1, hq.2.1, hq.2.2]
  have hp1 : privacyScoreOf p = 1 := by
    simp [privacyScoreOf, hp.1, hp.2.1, hp.2.2.1, hp.2.2.2]
  have hn0 : noiseScoreOf n = 0 := by
    simp [noiseScoreOf, hn.1, hn.2.1, hn.2.2]
  have hqn : qualityMultiplier "normal" = 1 := by decide
  have hpn : privacyScoreOf "normal" = 1 := by decide
  have hnn : noiseScoreOf "normal" = 0 := by decide
  simp only [calculate_score]
  simp [hq1, hp1, hn0, hqn, hpn, hnn]

/-- Witness for C4 at concrete unknown enum strings. -/
theorem calculate_score_unknown_enum_fallback_witness :
    calculate_score
        { defaultFeatures with
          bathroom_quality := "luxury", privacy := "secluded", noise_level := "silent" } =
      calculate_score
        { defaultFeatures with
          bathroom_quality := "normal", privacy := "normal", noise_level := "normal" } :=
  (calculate_score_unknown_enum_fallback defaultFeatures "luxury" "secluded" "silent"
    (by decide) (by decide) (by decide)).2

/-! ### Address normalization (property_cache.py lines 240-266; the same code
is duplicated in main.py lines 829-867).  The embedding works on `List Char`
and wraps `String` at the boundary.  Python regex character classes are
modelled on ASCII (`\s`, `\d`, `\w`), which covers address text. -/

/-- Python `\s` / `str.strip()` whitespace. -/
def pySpaceChar (c : Char) : Bool :=
  c == ' ' || c == '\t' || c == '\n' || c == '\r' || c == '\x0b' || c == '\x0c'

/-- Python `str.strip()`: drop whitespace from both ends. -/
def pyStripL (cs : List Char) : List Char :=
  ((cs.dropWhile pySpaceChar).reverse.dropWhile pySpaceChar).reverse

/-- A character of the regex class `[\d\w-]`. -/
def isWordDash (c : Char) : Bool := c.isAlphanum || c == '_' || c == '-'

/-- `,` or whitespace — the regex class `[,\s]`. -/
def isCommaSpace (c : Char) : Bool := c == ',' || pySpaceChar c

/-- Consume exactly `n` digit characters. -/
def dropDigits : Nat → List Char → Option (List Char)
  | 0, cs => some cs
  | _ + 1, [] => none
  | n + 1, c :: t => if c.isDigit then dropDigits n t else none

/-- The digits of a trailing ZIP, consumed on the reversed string: either
`\d{5}-\d{4}` (reversed: 4 digits, `-`, 5 digits) or plain `\d{5}`. -/
def zipCore (r1 : List Char) : Option (List Char) :=
  match dropDigits 4 r1 with
  | some ('-' :: r3) =>
    match dropDigits 5 r3 with
    | some r4 => some r4
    | none => dropDigits 5 r1
  | _ => dropDigits 5 r1

/-- `re.sub(r'\s*\d{5}(?:-\d{4})?\s*$', '', address).strip()`: the
end-anchored leftmost match strips trailing whitespace, the last ZIP or
ZIP+4 digit group, and the whitespace run before it; no match leaves the
string unchanged.  Then Python `.strip()`. -/
def zipSuffixStrip (cs : List Char) : List Char :=
  let r1 := cs.reverse.dropWhile pySpaceChar
  match zipCore r1 with
  | some r4 => pyStripL (r4.dropWhile pySpaceChar).reverse
  | none => pyStripL cs

/-- The 50 USPS state codes of the regex alternation. -/
def stateCodes : List String :=
  ["AL", "AK", "AZ", "AR", "CA", "CO", "CT", "DE", "FL", "GA", "HI", "ID",
   "IL", "IN", "IA", "KS", "KY", "LA", "ME", "MD", "MA", "MI", "MN", "MS",
   "MO", "MT", "NE", "NV", "NH", "NJ", "NM", "NY", "NC", "ND", "OH", "OK",
   "OR", "PA", "RI", "SC", "SD", "TN", "TX", "UT", "VT", "VA", "WA", "WV",
   "WI", "WY"]

/-- `re.search(r'[,\s]+(STATE)\s*$', addr, re.IGNORECASE)` and the slice
`addr[:state_match.start()]`: a two-letter state code at the end (after
optional trailing whitespace) preceded by at least one comma/space; the
match start extends left over the whole `[,\s]` run, so everything before
that run is returned.  `none` when the pattern does not match. -/
def stateSplit (cs : List Char) : Option (List Char) :=
  let r1 := cs.reverse.dropWhile pySpaceChar
  match r1 with
  | c1 :: c2 :: c3 :: rest =>
    if decide (String.mk [c2.toUpper, c1.toUpper] ∈ stateCodes) && isCommaSpace c3 then
      some (((c3 :: rest).dropWhile isCommaSpace).reverse)
    else none
  | _ => none

/-- Python `str.split()` (split on whitespace runs, no empty words). -/
def pyWordsAux (cur : List Char) : List Char → List (List Char)
  | [] => if cur.isEmpty then [] else [cur.reverse]
  | c :: t =>
    if pySpaceChar c then
      if cur.isEmpty then pyWordsAux [] t else cur.reverse :: pyWordsAux [] t
    else pyWordsAux (c :: cur) t

def pyWords (cs : List Char) : List (List Char) := pyWordsAux [] cs

/-- The comma-or-word-count heuristic (property_cache.py lines 248-264):
text before the first comma (stripped) when a comma is present; otherwise
drop the last whitespace-separated word when there are more than 3. -/
def commaOrWords (cs : List Char) : List Char :=
  if cs.contains ',' then pyStripL (cs.takeWhile fun c => !(c == ','))
  else
    let ws := pyWords cs
    if ws.length > 3 then List.intercalate [' '] ws.dropLast else cs

/-- Steps 1-4 of the normalizer: strip the trailing ZIP, strip a trailing
state code if present, then the comma-or-word-count heuristic
(`street_address_raw`). -/
def streetFromAddress (cs : List Char) : List Char :=
  let awz := zipSuffixStrip cs
  match stateSplit awz with
  | some pre => commaOrWords (pyStripL pre)
  | none => commaOrWords awz

/-- Case-insensitive literal match: consume `lit` (given lower-case) from
the head of `cs`. -/
def dropLit : List Char → List Char → Option (List Char)
  | [], cs => some cs
  | _ :: _, [] => none
  | l :: lt, c :: ct => if c.toLower == l then dropLit lt ct else none

/-- First alternative of `alts` that literally matches at the head of `cs`
(the regex alternation; at most one of the designator literals can match at
a given position, so ordered first-match equals the regex's choice). -/
def altDrop (alts : List (List Char)) (cs : List Char) : Option (List Char) :=
  match alts with
  | [] => none
  | a :: rest =>
    match dropLit a cs with
    | some r => some r
    | none => altDrop rest cs

/-- The alternation `unit|apt|apartment|suite|ste|d` of property_cache.py
line 266 and main.py line 867. -/
def unitAlts : List (List Char) :=
  [['u', 'n', 'i', 't'], ['a', 'p', 't'], ['a', 'p', 'a', 'r', 't', 'm', 'e', 'n', 't'],
   ['s', 'u', 'i', 't', 'e'], ['s', 't', 'e'], ['d']]

/-- The alternation `unit|apt|apartment|suite|ste` (without the bare `d`) of
main.py line 938, used on the property side of the miss-path match. -/
def unitAltsNoD : List (List Char) :=
  [['u', 'n', 'i', 't'], ['a', 'p', 't'], ['a', 'p', 'a', 'r', 't', 'm', 'e', 'n', 't'],
   ['s', 'u', 'i', 't', 'e'], ['s', 't', 'e']]

/-- One attempted match of `\s*[#,]?\s*(alts)\s*[\d\w-]+` at the head of
`cs`, returning the remainder after the match.  The regex needs no
backtracking: each `\s*` is followed by a non-space requirement, `[#,]?`
by a non-`#,` requirement, and at most one alternative matches. -/
def matchDesignator (alts : List (List Char)) (cs : List Char) : Option (List Char) :=
  let s1 := cs.dropWhile pySpaceChar
  let s2 := match s1 with
    | c :: t => if c == '#' || c == ',' then t else s1
    | [] => s1
  let s3 := s2.dropWhile pySpaceChar
  match altDrop alts s3 with
  | none => none
  | some s4 =>
    match s4.dropWhile pySpaceChar with
    | c :: rest => if isWordDash c then some (rest.dropWhile isWordDash) else none
    | [] => none

/-- Left-to-right `re.sub` scan: at each position try a match; on success
continue after the match, otherwise keep the character.  Fuel-based so it
computes by `decide`: every step consumes at least one character (a match
consumes at least the literal and one word character), so `cs.length` fuel
always completes the scan. -/
def stripUnitsGo (alts : List (List Char)) : Nat → List Char → List Char
  | 0, cs => cs
  | _ + 1, [] => []
  | fuel + 1, c :: rest =>
    match matchDesignator alts (c :: rest) with
    | some rem => stripUnitsGo alts fuel rem
    | none => c :: stripUnitsGo alts fuel rest

/-- `re.sub(r'\s*[#,]?\s*(alts)\s*[\d\w-]+', '', cs, flags=re.IGNORECASE)`. -/
def subDesignators (alts : List (List Char)) (cs : List Char) : List Char :=
  stripUnitsGo alts cs.length cs

/-- Step 5 plus step 6: strip designators, `.strip()`, `.lower()`
(property_cache.py line 266). -/
def normalizeStreet (cs : List Char) : List Char :=
  (pyStripL (subDesignators unitAlts cs)).map Char.toLower

def normalizeAddrL (cs : List Char) : List Char :=
  normalizeStreet (streetFromAddress cs)

/-- The full address normalizer: `search_address` of
`lookup_cached_property` (and `street_address` of `lookup_address`). -/
def normalizeAddress (s : String) : String := String.mk (normalizeAddrL s.toList)

/-- Python's `needle in hay` on strings: contiguous substring test
(always true for the empty needle). -/
def isSubstringL (needle hay : List Char) : Bool :=
  hay.tails.any fun t => needle.isPrefixOf t

/-- C5: the comma form and the comma-free form of the same address
normalize to the same canonical street key. -/
theorem normalizeAddress_comma_free_equal :
    normalizeAddress "123 Main St, Springfield, IL 62704" =
      normalizeAddress "123 Main St Springfield IL 62704" ∧
    normalizeAddress "123 Main St, Springfield, IL 62704" = "123 main st" := by decide

/-- No alternative of `alts` literally matches at any position of `cs`. -/
def noAltOccursB (alts : List (List Char)) : List Char → Bool
  | [] => true
  | c :: t => (altDrop alts (c :: t)).isNone && noAltOccursB alts t

theorem altDrop_nil (alts : List (List Char)) (halts : ∀ a ∈ alts, a ≠ []) :
    altDrop alts [] = none := by
  induction alts with
  | nil => rfl
  | cons a rest ih =>
    have ha := halts a (by simp)
    match a, ha with
    | l :: lt, _ =>
      simp only [altDrop, dropLit]
      exact ih fun x hx => halts x (by simp [hx])

theorem noAlt_suffix (alts : List (List Char)) (halts : ∀ a ∈ alts, a ≠ [])
    (cs : List Char) (hno : noAltOccursB alts cs = true) :
    ∀ t : List Char, t <:+ cs → altDrop alts t = none := by
  induction cs with
  | nil =>
    intro t ht
    rw [List.suffix_nil.mp ht]
    exact altDrop_nil alts halts
  | cons c cs ih =>
    simp only [noAltOccursB, Bool.and_eq_true, Option.isNone_iff_eq_none] at hno
    intro t ht
    rcases List.suffix_cons_iff.mp ht with h | h
    · rw [h]; exact hno.1
    · exact ih hno.2 t h

theorem punctStep_suffix (s1 : List Char) :
    (match s1 with
     | c :: t => if c == '#' || c == ',' then t else s1
     | [] => s1) <:+ s1 := by
  match s1 with
  | [] => exact List.suffix_refl _
  | c :: t =>
    show (if c == '#' || c == ',' then t else c :: t) <:+ c :: t
    split
    · exact List.suffix_cons c t
    · exact List.suffix_refl _

theorem matchDesignator_eq_none (alts : List (List Char)) (halts : ∀ a ∈ alts, a ≠ [])
    (cs t : List Char) (hno : noAltOccursB alts cs = true) (ht : t <:+ cs) :
    matchDesignator alts t = none := by
  have hs1 : t.dropWhile pySpaceChar <:+ cs :=
    (List.dropWhile_suffix pySpaceChar).trans ht
  have hs2 := (punctStep_suffix (t.dropWhile pySpaceChar)).trans hs1
  have hs3 := (List.dropWhile_suffix pySpaceChar).trans hs2
  have halt := noAlt_suffix alts halts cs hno _ hs3
  simp only [matchDesignator]
  rw [halt]

theorem stripUnitsGo_id (alts : List (List Char)) (halts : ∀ a ∈ alts, a ≠ [])
    (fuel : Nat) (cs : List Char) (hno : noAltOccursB alts cs = true) :
    stripUnitsGo alts fuel cs = cs := by
  induction fuel generalizing cs with
  | zero => rfl
  | succ fuel ih =>
    match cs with
    | [] => rfl
    | c :: rest =>
      have hm := matchDesignator_eq_none alts halts (c :: rest) (c :: rest) hno
        (List.suffix_refl _)
      simp only [noAltOccursB, Bool.and_eq_true] at hno
      simp only [stripUnitsGo, hm]
      rw [ih rest hno.2]

theorem subDesignators_id (alts : List (List Char)) (halts : ∀ a ∈ alts, a ≠ [])
    (cs : List Char) (hno : noAltOccursB alts cs = true) :
    subDesignators alts cs = cs :=
  stripUnitsGo_id alts halts cs.length cs hno

/-- C6 counterexample: steps 1-4 on "123 Davis St, Springfield, IL 62704"
produce the street string "123 Davis St", yet step 5 turns it into
"123 st" — the word "Davis" (which merely contains the letter d) is
removed, so step 5 does not leave such words intact. -/
theorem unitStrip_removes_word_containing_d :
    streetFromAddress ("123 Davis St, Springfield, IL 62704".toList) =
      "123 Davis St".toList ∧
    normalizeStreet ("123 Davis St".toList) = "123 st".toList := by decide

/-- C6 amended: the designator substitution has no word-boundary check: it
removes each leftmost occurrence of optional whitespace, an optional `#` or
comma, one of the letter sequences unit/apt/apartment/suite/ste/d
(case-insensitive, even inside a word), optional whitespace, and a maximal
nonempty run of `[\d\w-]` characters.  A street string in which none of
the six letter sequences occurs at any position is left unchanged, but a
word merely containing `d` followed by such characters is removed
("123 Davis St" becomes "123 st"). -/
theorem unitStrip_amended :
    (∀ cs : List Char, noAltOccursB unitAlts cs = true →
      subDesignators unitAlts cs = cs) ∧
    normalizeStreet ("123 Davis St".toList) = "123 st".toList := by
  refine ⟨fun cs h => subDesignators_id unitAlts ?_ cs h, by decide⟩
  intro a ha
  fin_cases ha <;> simp [unitAlts]

/-- Witness for the amended C6 on a designator-free street string. -/
theorem unitStrip_amended_witness :
    subDesignators unitAlts ("123 Main St".toList) = "123 Main St".toList :=
  unitStrip_amended.1 ("123 Main St".toList) (by decide)

/-! ### Property cache rows and lookups (property_cache.py).  The SQLite
table is a list of rows; `last_updated` and the current time are measured
in days, so the SQL comparison `last_updated > now - 360` is the 360-day
freshness window.  `SELECT ... WHERE ... ORDER BY` is filter-then-sort. -/

/-- A row of `cached_properties` (property_cache.py lines 26-45). -/
structure CachedRow where
  zip_code : String
  address : String
  bedrooms : Int
  bathrooms : ℚ
  sqft : Int
  lot_sqft : Int
  lot_acres : ℚ
  garage_cars : Int
  year_built : Option Int
  property_type : String
  price : Option Int
  photo_url : Option String
  last_updated : Int
deriving DecidableEq

/-- The dict returned by `lookup_cached_property` (lines 292-303) and by
the miss path of `lookup_address` (main.py lines 1061-1072). -/
structure PropertyRecord where
  address : String
  bedrooms : Int
  bathrooms : ℚ
  square_feet : Int
  lot_acres : ℚ
  garage_cars : Int
  year_built : Option Int
  property_type : String
  price : Option Int
  photo_url : Option String
deriving DecidableEq

/-- Rows of the ZIP within the 360-day window, newest first
(property_cache.py lines 272-284). -/
def freshRowsByZip (db : List CachedRow) (now : Int) (zip_code : String) :
    List CachedRow :=
  List.insertionSort (fun a b => b.last_updated ≤ a.last_updated)
    (db.filter fun r => decide (r.zip_code = zip_code) && decide (now - 360 < r.last_updated))

/-- The bidirectional substring test of the match loop (line 291), against
`row["address"].lower().strip()`. -/
def rowMatches (search_address : List Char) (row : CachedRow) : Bool :=
  let cached_addr := pyStripL (row.address.toList.map Char.toLower)
  isSubstringL search_address cached_addr || isSubstringL cached_addr search_address

/-- `lookup_cached_property(address, zip_code)` (lines 228-305): normalize
the query, scan the fresh rows newest first, return the first fuzzy match
with the caller's original address echoed in the result, else `None`. -/
def lookup_cached_property (db : List CachedRow) (now : Int)
    (address zip_code : String) : Option PropertyRecord :=
  let search_address := (normalizeAddress address).toList
  (freshRowsByZip db now zip_code).find? (rowMatches search_address) |>.map fun row =>
    { address := address
      bedrooms := row.bedrooms
      bathrooms := row.bathrooms
      square_feet := row.sqft
      lot_acres := row.lot_acres
      garage_cars := row.garage_cars
      year_built := row.year_built
      property_type := row.property_type
      price := row.price
      photo_url := row.photo_url }

/-- The dict built per row by `search_cached_properties` (lines 374-386). -/
structure SearchRecord where
  address : String
  price : Option Int
  bedrooms : Int
  bathrooms : ℚ
  square_feet : Int
  lot_acres : ℚ
  garage_cars : Int
  photo_url : Option String
  property_type : String
  year_built : Option Int
deriving DecidableEq

def formatSearchRow (row : CachedRow) : SearchRecord :=
  { address := row.address
    price := row.price
    bedrooms := row.bedrooms
    bathrooms := row.bathrooms
    square_feet := row.sqft
    lot_acres := row.lot_acres
    garage_cars := row.garage_cars
    photo_url := row.photo_url
    property_type := row.property_type
    year_built := row.year_built }

/-- The row filter of `search_cached_properties`' SQL query: same ZIP,
non-null price at most `max_price`, within the freshness window. -/
def priceRowKeep (zip_code : String) (max_price cutoff : Int) (r : CachedRow) : Bool :=
  match r.price with
  | some p => decide (r.zip_code = zip_code) && decide (p ≤ max_price) &&
      decide (cutoff < r.last_updated)
  | none => false

/-- `search_cached_properties(zip_code, max_price, max_age_days=360)`
(lines 338-388): the matching rows sorted by price ascending, `None` when
there are none. -/
def search_cached_properties (db : List CachedRow) (now : Int) (zip_code : String)
    (max_price : Int) (max_age_days : Int := 360) : Option (List SearchRecord) :=
  let cutoff := now - max_age_days
  let rows := List.insertionSort (fun a b => a.price.getD 0 ≤ b.price.getD 0)
    (db.filter (priceRowKeep zip_code max_price cutoff))
  if rows.isEmpty then none else some (rows.map formatSearchRow)

theorem isSubstringL_nil (hay : List Char) : isSubstringL [] hay = true := by
  cases hay with
  | nil => rfl
  | cons c t => simp [isSubstringL, List.isPrefixOf]

instance : IsTotal CachedRow (fun a b => a.price.getD 0 ≤ b.price.getD 0) :=
  ⟨fun a b => le_total (a.price.getD 0) (b.price.getD 0)⟩

instance : IsTrans CachedRow (fun a b => a.price.getD 0 ≤ b.price.getD 0) :=
  ⟨fun _ _ _ h1 h2 => le_trans h1 h2⟩

/-- C10: a cache hit echoes the caller's original query string in the
`address` field, and every other field of the result is copied from a
matched fresh cached row. -/
theorem lookup_hit_echoes_query_address (db : List CachedRow) (now : Int)
    (address zip_code : String) (r : PropertyRecord)
    (h : lookup_cached_property db now address zip_code = some r) :
    r.address = address ∧
    ∃ row ∈ db, (row.zip_code = zip_code ∧ now - 360 < row.last_updated ∧
        rowMatches (normalizeAddress address).toList row = true) ∧
      r.bedrooms = row.bedrooms ∧ r.bathrooms = row.bathrooms ∧
      r.square_feet = row.sqft ∧ r.lot_acres = row.lot_acres ∧
      r.garage_cars = row.garage_cars ∧ r.year_built = row.year_built ∧
      r.property_type = row.property_type ∧ r.price = row.price ∧
      r.photo_url = row.photo_url := by
  simp only [lookup_cached_property, Option.map_eq_some'] at h
  obtain ⟨row, hfind, hrec⟩ := h
  have hmatch := List.find?_some hfind
  have hmem := List.mem_of_find?_eq_some hfind
  rw [freshRowsByZip, List.mem_insertionSort] at hmem
  rw [List.mem_filter] at hmem
  obtain ⟨hdb, hpred⟩ := hmem
  simp only [Bool.and_eq_true, decide_eq_true_eq] at hpred
  subst hrec
  exact ⟨rfl, row, hdb, ⟨hpred.1, hpred.2, hmatch⟩, rfl, rfl, rfl, rfl, rfl, rfl,
    rfl, rfl, rfl⟩

/-- A concrete fresh cached row used by witnesses and counterexamples. -/
def exRow : CachedRow :=
  { zip_code := "62704", address := "123 main st", bedrooms := 3, bathrooms := 2,
    sqft := 1500, lot_sqft := 4356, lot_acres := 0, garage_cars := 2,
    year_built := some 1990, property_type := "single_family",
    price := some 250000, photo_url := some "http://img", last_updated := 0 }

/-- Witness for C10 at a concrete cache and query. -/
theorem lookup_hit_echoes_query_address_witness :
    ({ address := "123 Main St, Springfield, IL 62704", bedrooms := 3, bathrooms := 2,
       square_feet := 1500, lot_acres := 0, garage_cars := 2,
       year_built := some 1990, property_type := "single_family",
       price := some 250000, photo_url := some "http://img" } : PropertyRecord).address =
        "123 Main St, Springfield, IL 62704" ∧
    ∃ row ∈ [exRow], (row.zip_code = "62704" ∧ (0 : Int) - 360 < row.last_updated ∧
        rowMatches (normalizeAddress "123 Main St, Springfield, IL 62704").toList row = true) ∧
      (3 : Int) = row.bedrooms ∧ (2 : ℚ) = row.bathrooms ∧
      (1500 : Int) = row.sqft ∧ (0 : ℚ) = row.lot_acres ∧
      (2 : Int) = row.garage_cars ∧ some 1990 = row.year_built ∧
      "single_family" = row.property_type ∧ some 250000 = row.price ∧
      some "http://img" = row.photo_url :=
  lookup_hit_echoes_query_address [exRow] 0 "123 Main St, Springfield, IL 62704"
    "62704" _ (by decide)

/-- C7 counterexample: the address ", IL 62704" normalizes to the empty
street key, and with a fresh cached row present the lookup returns that
row's record instead of signalling NotFound. -/
theorem empty_key_lookup_counterexample :
    normalizeAddress ", IL 62704" = "" ∧
    lookup_cached_property [exRow] 0 ", IL 62704" "62704" ≠ none := by decide

instance : IsTotal CachedRow (fun a b => b.last_updated ≤ a.last_updated) :=
  ⟨fun a b => le_total b.last_updated a.last_updated⟩

instance : IsTrans CachedRow (fun a b => b.last_updated ≤ a.last_updated) :=
  ⟨fun _ _ _ h1 h2 => le_trans h2 h1⟩

/-- C7 amended: normalization is total and never fails, but an input whose
normalized street key is empty matches every cached address (the empty
string is a substring of every string), so the lookup signals NotFound
exactly when the ZIP has no fresh cached rows, and otherwise returns the
newest fresh cached row of the ZIP: a fresh row of the ZIP whose
`last_updated` is maximal among them, with every field copied from it and
the query address echoed. -/
theorem empty_key_lookup_amended (db : List CachedRow) (now : Int)
    (address zip_code : String) (h : normalizeAddress address = "") :
    (lookup_cached_property db now address zip_code = none ↔
      db.filter (fun r => decide (r.zip_code = zip_code) &&
        decide (now - 360 < r.last_updated)) = []) ∧
    (∀ r : PropertyRecord, lookup_cached_property db now address zip_code = some r →
      ∃ row ∈ db.filter (fun r => decide (r.zip_code = zip_code) &&
          decide (now - 360 < r.last_updated)),
        (∀ x ∈ db.filter (fun r => decide (r.zip_code = zip_code) &&
            decide (now - 360 < r.last_updated)),
          x.last_updated ≤ row.last_updated) ∧
        r = { address := address, bedrooms := row.bedrooms, bathrooms := row.bathrooms,
              square_feet := row.sqft, lot_acres := row.lot_acres,
              garage_cars := row.garage_cars, year_built := row.year_built,
              property_type := row.property_type, price := row.price,
              photo_url := row.photo_url }) := by
  have hsub : ∀ row, rowMatches (normalizeAddress address).toList row = true := by
    intro row
    rw [h]
    rw [show ("".toList : List Char) = [] from rfl]
    simp [rowMatches, isSubstringL_nil]
  constructor
  · simp only [lookup_cached_property, Option.map_eq_none']
    constructor
    · intro hnone
      cases hr : freshRowsByZip db now zip_code with
      | nil =>
        have hperm := List.perm_insertionSort
          (fun a b : CachedRow => b.last_updated ≤ a.last_updated)
          (db.filter fun r => decide (r.zip_code = zip_code) &&
            decide (now - 360 < r.last_updated))
        rw [freshRowsByZip] at hr
        rw [hr] at hperm
        exact hperm.symm.eq_nil
      | cons r t =>
        rw [hr] at hnone
        rw [List.find?] at hnone
        rw [hsub r] at hnone
        simp at hnone
    · intro hfil
      rw [freshRowsByZip, hfil]
      rfl
  · intro r hrsome
    simp only [lookup_cached_property, Option.map_eq_some'] at hrsome
    obtain ⟨row, hfind, hrec⟩ := hrsome
    cases hr : freshRowsByZip db now zip_code with
    | nil =>
      rw [hr] at hfind
      simp at hfind
    | cons r0 t =>
      rw [hr] at hfind
      rw [List.find?] at hfind
      rw [hsub r0] at hfind
      simp only [Option.some.injEq] at hfind
      subst hfind
      have hperm := List.perm_insertionSort
        (fun a b : CachedRow => b.last_updated ≤ a.last_updated)
        (db.filter fun r => decide (r.zip_code = zip_code) &&
          decide (now - 360 < r.last_updated))
      have hsort := List.sorted_insertionSort
        (fun a b : CachedRow => b.last_updated ≤ a.last_updated)
        (db.filter fun r => decide (r.zip_code = zip_code) &&
          decide (now - 360 < r.last_updated))
      rw [freshRowsByZip] at hr
      rw [hr] at hperm hsort
      refine ⟨r0, hperm.mem_iff.mp (List.mem_cons_self r0 t), ?_, hrec.symm⟩
      intro x hx
      rcases List.mem_cons.mp (hperm.mem_iff.mpr hx) with hxe | hxt
      · rw [hxe]
      · exact List.rel_of_sorted_cons hsort x hxt

/-- Witness for the amended C7 at a concrete cache: the returned record is
built from the single fresh row, which is trivially the newest. -/
theorem empty_key_lookup_amended_witness :
    ∃ row ∈ [exRow].filter (fun r => decide (r.zip_code = "62704") &&
        decide ((0 : Int) - 360 < r.last_updated)),
      (∀ x ∈ [exRow].filter (fun r => decide (r.zip_code = "62704") &&
          decide ((0 : Int) - 360 < r.last_updated)),
        x.last_updated ≤ row.last_updated) ∧
      ({ address := ", IL 62704", bedrooms := 3, bathrooms := 2, square_feet := 1500,
         lot_acres := 0, garage_cars := 2, year_built := some 1990,
         property_type := "single_family", price := some 250000,
         photo_url := some "http://img" } : PropertyRecord) =
        { address := ", IL 62704", bedrooms := row.bedrooms, bathrooms := row.bathrooms,
          square_feet := row.sqft, lot_acres := row.lot_acres,
          garage_cars := row.garage_cars, year_built := row.year_built,
          property_type := row.property_type, price := row.price,
          photo_url := row.photo_url } :=
  (empty_key_lookup_amended [exRow] 0 ", IL 62704" "62704" (by decide)).2 _ (by decide)

/-- Concrete cached rows with prices 100000 / 250000 / 400000 for C9. -/
def priceRow1 : CachedRow :=
  { zip_code := "62704", address := "1 first st", bedrooms := 2, bathrooms := 1,
    sqft := 900, lot_sqft := 0, lot_acres := 0, garage_cars := 0,
    year_built := none, property_type := "Unknown", price := some 100000,
    photo_url := none, last_updated := 0 }

def priceRow2 : CachedRow :=
  { priceRow1 with address := "2 second st", price := some 250000 }

def priceRow3 : CachedRow :=
  { priceRow1 with address := "3 third st", price := some 400000 }

/-- C9: whenever some cached row of the ZIP has a non-null price at most
`max_price` within the 360-day window, `search_cached_properties` returns
exactly the matching rows, sorted ascending by price; concretely, prices
[100000, 250000, 400000] with max_price 250000 return exactly the first
two in ascending order. -/
theorem search_cached_properties_price_ceiling :
    (∀ (db : List CachedRow) (now : Int) (zip_code : String) (max_price : Int),
      db.filter (priceRowKeep zip_code max_price (now - 360)) ≠ [] →
      ∃ l, search_cached_properties db now zip_code max_price = some l ∧
        l.Perm ((db.filter (priceRowKeep zip_code max_price (now - 360))).map
          formatSearchRow) ∧
        l.Pairwise (fun a b => a.price.getD 0 ≤ b.price.getD 0)) ∧
    search_cached_properties [priceRow2, priceRow3, priceRow1] 0 "62704" 250000 =
      some [formatSearchRow priceRow1, formatSearchRow priceRow2] := by
  constructor
  · intro db now zip_code max_price hne
    have hperm := List.perm_insertionSort
      (fun a b : CachedRow => a.price.getD 0 ≤ b.price.getD 0)
      (db.filter (priceRowKeep zip_code max_price (now - 360)))
    have hsort := List.sorted_insertionSort
      (fun a b : CachedRow => a.price.getD 0 ≤ b.price.getD 0)
      (db.filter (priceRowKeep zip_code max_price (now - 360)))
    have hrne : List.insertionSort (fun a b : CachedRow => a.price.getD 0 ≤ b.price.getD 0)
        (db.filter (priceRowKeep zip_code max_price (now - 360))) ≠ [] := by
      intro hnil
      rw [hnil] at hperm
      exact hne hperm.symm.eq_nil
    refine ⟨(List.insertionSort (fun a b : CachedRow => a.price.getD 0 ≤ b.price.getD 0)
      (db.filter (priceRowKeep zip_code max_price (now - 360)))).map formatSearchRow,
      ?_, ?_, ?_⟩
    · simp only [search_cached_properties]
      rw [if_neg (by simpa [List.isEmpty_iff] using hrne)]
    · exact hperm.map formatSearchRow
    · rw [List.pairwise_map]
      exact hsort
  · decide

/-- Witness for C9 at a concrete cache. -/
theorem search_cached_properties_price_ceiling_witness :
    ∃ l, search_cached_properties [priceRow2, priceRow3, priceRow1] 0 "62704" 250000 =
        some l ∧
      l.Perm ((([priceRow2, priceRow3, priceRow1]).filter
        (priceRowKeep "62704" 250000 ((0 : Int) - 360))).map formatSearchRow) ∧
      l.Pairwise (fun a b => a.price.getD 0 ≤ b.price.getD 0) :=
  search_cached_properties_price_ceiling.1 [priceRow2, priceRow3, priceRow1] 0
    "62704" 250000 (by decide)

/-! ### External API property records and the cache-miss path.
A heterogeneous upstream record is modelled by one `Option` field per
dict path the code reads; `none` stands for "absent or falsy" (Python
truthiness), matching how every access is guarded.  `desc…` fields live
under `prop["description"]`, `top…` fields at the top level. -/

inductive PyPhoto where
  | obj (href : Option String)
  | strVal (s : String)
deriving DecidableEq

/-- `prop["location"]["address"]` (and `matched_property["location"]["address"]`). -/
structure LocAddr where
  line : Option String := none
  city : Option String := none
  state_code : Option String := none
  postal_code : Option String := none
deriving DecidableEq

structure ApiProperty where
  locationAddress : Option LocAddr := none
  addressLine : Option String := none
  addressStr : Option String := none
  descBeds : Option Int := none
  topBeds : Option Int := none
  descBedsMin : Option Int := none
  descBathsFull : Option Int := none
  topBathsFull : Option Int := none
  descBaths : Option Int := none
  descBathsHalf : Option Int := none
  topBathsHalf : Option Int := none
  descSqft : Option Int := none
  topSqft : Option Int := none
  descLotSqft : Option Int := none
  topLotSqft : Option Int := none
  descGarage : Option Int := none
  topGarage : Option Int := none
  descGarageSpaces : Option Int := none
  topGarageSpaces : Option Int := none
  descYearBuilt : Option Int := none
  topYearBuilt : Option Int := none
  descType : Option String := none
  topPropType : Option String := none
  topType : Option String := none
  listPrice : Option Int := none
  topPrice : Option Int := none
  descSoldPrice : Option Int := none
  primaryPhoto : Option PyPhoto := none
  photos : List PyPhoto := []
  thumbnail : Option String := none
deriving DecidableEq

/-- Python `a or b or … or d` over numeric dict reads: the first present
non-zero value, else the default (0 is falsy and falls through). -/
def pyOrInt : List (Option Int) → Int → Int
  | [], d => d
  | some v :: rest, d => if v ≠ 0 then v else pyOrInt rest d
  | none :: rest, d => pyOrInt rest d

/-- Same truthiness chain producing `None` when nothing is truthy. -/
def pyOrIntOpt : List (Option Int) → Option Int
  | [] => none
  | some v :: rest => if v ≠ 0 then some v else pyOrIntOpt rest
  | none :: rest => pyOrIntOpt rest

/-- Python `a or … or d` over string dict reads ("" is falsy). -/
def pyOrStr : List (Option String) → String → String
  | [], d => d
  | some s :: rest, d => if s ≠ "" then s else pyOrStr rest d
  | none :: rest, d => pyOrStr rest d

/-- Python 3 `round(x, 2)`: banker's rounding at two decimals (modelled on
the exact rational value). -/
def roundHalfEven (x : ℚ) : Int :=
  let f : Int := ⌊x⌋
  let r : ℚ := x - (f : ℚ)
  if r < 1/2 then f
  else if r > 1/2 then f + 1
  else if f % 2 = 0 then f else f + 1

def pyRound2 (x : ℚ) : ℚ := (roundHalfEven (x * 100) : ℚ) / 100

/-- Address extraction of `cache_properties` (property_cache.py lines
85-97): the `location.address.line`, else the `address` dict's line, else
the `address` string; "" means "skip this record". -/
def cacheExtractAddress (p : ApiProperty) : String :=
  match p.locationAddress with
  | some la => la.line.getD ""
  | none =>
    match p.addressLine with
    | some l => l
    | none =>
      match p.addressStr with
      | some s => s
      | none => ""

def cacheBedrooms (p : ApiProperty) : Int :=
  pyOrInt [p.descBeds, p.topBeds, p.descBedsMin] 0

def cacheBathsFull (p : ApiProperty) : Int :=
  pyOrInt [p.descBathsFull, p.topBathsFull, p.descBaths] 0

def cacheBathsHalf (p : ApiProperty) : Int :=
  pyOrInt [p.descBathsHalf, p.topBathsHalf] 0

def cacheBathrooms (p : ApiProperty) : ℚ :=
  (cacheBathsFull p : ℚ) + (cacheBathsHalf p : ℚ) * (1/2)

def cacheSqft (p : ApiProperty) : Int :=
  pyOrInt [p.descSqft, p.topSqft, p.descLotSqft] 0

def cacheLotSqft (p : ApiProperty) : Int :=
  pyOrInt [p.descLotSqft, p.topLotSqft] 0

def cacheLotAcres (p : ApiProperty) : ℚ :=
  if cacheLotSqft p ≠ 0 then pyRound2 ((cacheLotSqft p : ℚ) / 43560) else 0

def cacheGarage (p : ApiProperty) : Int :=
  pyOrInt [p.descGarage, p.topGarage, p.descGarageSpaces, p.topGarageSpaces] 0

def cacheYearBuilt (p : ApiProperty) : Option Int :=
  pyOrIntOpt [p.descYearBuilt, p.topYearBuilt]

def cacheType (p : ApiProperty) : String :=
  pyOrStr [p.descType, p.topPropType, p.topType] "Unknown"

def cachePrice (p : ApiProperty) : Option Int :=
  pyOrIntOpt [p.listPrice, p.topPrice, p.descSoldPrice]

def cachePhotoVal : PyPhoto → Option String
  | .obj h => h
  | .strVal s => some s

def cachePhoto (p : ApiProperty) : Option String :=
  match p.primaryPhoto with
  | some ph => cachePhotoVal ph
  | none =>
    match p.photos with
    | first :: _ => cachePhotoVal first
    | [] =>
      match p.thumbnail with
      | some t => if t ≠ "" then some t else none
      | none => none

/-- One row built by `cache_properties` for one API record (lines 99-214);
`none` when the record has no usable address (the `continue`). -/
def buildRow (p : ApiProperty) (zip_code : String) (now : Int) : Option CachedRow :=
  let a := cacheExtractAddress p
  if a = "" then none
  else some
    { zip_code := zip_code
      address := String.mk (pyStripL (a.toList.map Char.toLower))
      bedrooms := cacheBedrooms p
      bathrooms := cacheBathrooms p
      sqft := cacheSqft p
      lot_sqft := cacheLotSqft p
      lot_acres := cacheLotAcres p
      garage_cars := cacheGarage p
      year_built := cacheYearBuilt p
      property_type := cacheType p
      price := cachePrice p
      photo_url := cachePhoto p
      last_updated := now }

def sameKey (r x : CachedRow) : Bool :=
  x.zip_code == r.zip_code && x.address == r.address

/-- `INSERT … ON CONFLICT(zip_code, address) DO UPDATE` (lines 192-214):
replace the row with the same key in place, else append. -/
def upsertRow (db : List CachedRow) (r : CachedRow) : List CachedRow :=
  if db.any (sameKey r) then db.map fun x => if sameKey r x then r else x
  else db ++ [r]

/-- `cache_properties(properties, zip_code)` (lines 66-225). -/
def cache_properties (db : List CachedRow) (properties : List ApiProperty)
    (zip_code : String) (now : Int) : List CachedRow :=
  properties.foldl
    (fun d p =>
      match buildRow p zip_code now with
      | some r => upsertRow d r
      | none => d)
    db

/-! ### The miss path of `lookup_address` (main.py lines 829-1076).
Steps: normalize the query (the same code as property_cache lines 243-266,
embedded once as `normalizeAddrL`), search the ZIP, cache the results,
then match over the API result list and extract the matched record.  The
extraction formulas below re-state main.py lines 918-1053, which duplicate
the caching extraction. -/

/-- Address extraction of the match loop (main.py lines 918-929). -/
def mainExtractAddress (p : ApiProperty) : String :=
  match p.locationAddress with
  | some la => la.line.getD ""
  | none =>
    match p.addressLine with
    | some l => l
    | none =>
      match p.addressStr with
      | some s => s
      | none => ""

def mainBedrooms (p : ApiProperty) : Int :=
  pyOrInt [p.descBeds, p.topBeds, p.descBedsMin] 0

def mainBathsFull (p : ApiProperty) : Int :=
  pyOrInt [p.descBathsFull, p.topBathsFull, p.descBaths] 0

def mainBathsHalf (p : ApiProperty) : Int :=
  pyOrInt [p.descBathsHalf, p.topBathsHalf] 0

def mainBathrooms (p : ApiProperty) : ℚ :=
  (mainBathsFull p : ℚ) + (mainBathsHalf p : ℚ) * (1/2)

/-- `int(bathrooms) if bathrooms == int(bathrooms) else bathrooms`
(main.py line 992); value-preserving. -/
def pyIntCoerce (q : ℚ) : ℚ :=
  if (ratTrunc q : ℚ) = q then (ratTrunc q : ℚ) else q

def mainSqft (p : ApiProperty) : Int :=
  pyOrInt [p.descSqft, p.topSqft, p.descLotSqft] 0

def mainLotSqft (p : ApiProperty) : Int :=
  pyOrInt [p.descLotSqft, p.topLotSqft] 0

def mainLotAcres (p : ApiProperty) : ℚ :=
  if mainLotSqft p ≠ 0 then pyRound2 ((mainLotSqft p : ℚ) / 43560) else 0

def mainGarage (p : ApiProperty) : Int :=
  pyOrInt [p.descGarage, p.topGarage, p.descGarageSpaces, p.topGarageSpaces] 0

def mainYearBuilt (p : ApiProperty) : Option Int :=
  pyOrIntOpt [p.descYearBuilt, p.topYearBuilt]

def mainType (p : ApiProperty) : String :=
  pyOrStr [p.descType, p.topPropType, p.topType] "Unknown"

def mainPrice (p : ApiProperty) : Option Int :=
  pyOrIntOpt [p.listPrice, p.topPrice, p.descSoldPrice]

def mainPhotoVal : PyPhoto → Option String
  | .obj h => h
  | .strVal s => some s

def mainPhoto (p : ApiProperty) : Option String :=
  match p.primaryPhoto with
  | some ph => mainPhotoVal ph
  | none =>
    match p.photos with
    | first :: _ => mainPhotoVal first
    | [] =>
      match p.thumbnail with
      | some t => if t ≠ "" then some t else none
      | none => none

/-- Python `.strip(',')` after `.strip()`: trim commas from both ends. -/
def stripCommaEnds (cs : List Char) : List Char :=
  ((cs.dropWhile fun c => c == ',').reverse.dropWhile fun c => c == ',').reverse

/-- `full_address` (main.py lines 1056-1057): rebuilt from the API
location fields, then `.strip().strip(',')`. -/
def fullAddressOf (p : ApiProperty) : String :=
  let line := (p.locationAddress.map fun a => a.line.getD "").getD ""
  let city := (p.locationAddress.map fun a => a.city.getD "").getD ""
  let stc := (p.locationAddress.map fun a => a.state_code.getD "").getD ""
  let pc := (p.locationAddress.map fun a => a.postal_code.getD "").getD ""
  String.mk (stripCommaEnds (pyStripL
    (line ++ ", " ++ city ++ ", " ++ stc ++ " " ++ pc).toList))

/-- `re.match(r'^(\d+)', s)`: the leading digit run (empty when none). -/
def leadingDigits (cs : List Char) : List Char := cs.takeWhile Char.isDigit

/-- main.py line 938: strip designators (without the bare `d`) from the
already lower-cased property address, then `.strip()`. -/
def mainPropStrip (cs : List Char) : List Char :=
  pyStripL (subDesignators unitAltsNoD cs)

/-- The per-property match test of the miss path (main.py lines 917-953):
street-number priority over the unit-stripped property address, falling
back to a bidirectional substring test against the raw lower-cased
property address; records with no address are skipped. -/
def propMatches (street_address street_number : List Char) (p : ApiProperty) : Bool :=
  let raw := mainExtractAddress p
  if raw = "" then false
  else
    let prop_address_raw := raw.toList.map Char.toLower
    let prop_address := mainPropStrip prop_address_raw
    let prop_street_number := leadingDigits prop_address
    if !street_number.isEmpty && prop_street_number == street_number then
      isSubstringL street_address prop_address ||
        isSubstringL prop_address street_address
    else
      isSubstringL street_address prop_address_raw ||
        isSubstringL prop_address_raw street_address

/-- The match-and-extract phase of the miss path (main.py lines 916-1076):
first matching API record in list order; the returned record's address is
the rebuilt `full_address` (or the query when it is empty), every other
field extracted from the matched API record.  `none` models the 404
NotFound response. -/
def lookup_address_miss (properties : List ApiProperty) (address _zip_code : String) :
    Option PropertyRecord :=
  let street_address := normalizeAddrL address.toList
  let street_number := leadingDigits street_address
  (properties.find? (propMatches street_address street_number)).map fun p =>
    { address := if fullAddressOf p = "" then address else fullAddressOf p
      bedrooms := mainBedrooms p
      bathrooms := pyIntCoerce (mainBathrooms p)
      square_feet := mainSqft p
      lot_acres := mainLotAcres p
      garage_cars := mainGarage p
      year_built := mainYearBuilt p
      property_type := mainType p
      price := mainPrice p
      photo_url := mainPhoto p }

/-- The API record of the C8 counterexample. -/
def exApiProp : ApiProperty :=
  { locationAddress := some
      { line := some "100 Main St", city := some "Springfield",
        state_code := some "IL", postal_code := some "62704" },
    descBeds := some 3 }

/-- C8 counterexample: on a cache miss for the comma-free query, the miss
path matches the record but returns the address rebuilt from the API
location fields ("100 Main St, Springfield, IL 62704"), while re-running
the cache-hit matching pass over the freshly cached rows returns the query
address verbatim — the two records differ. -/
theorem miss_path_not_cache_rerun :
    lookup_address_miss [exApiProp] "100 Main St Springfield IL 62704" "62704" ≠
      lookup_cached_property (cache_properties [] [exApiProp] "62704" 0) 0
        "100 Main St Springfield IL 62704" "62704" := by decide

theorem pyIntCoerce_eq (q : ℚ) : pyIntCoerce q = q := by
  unfold pyIntCoerce
  split
  · assumption
  · rfl

theorem buildRow_fields (p : ApiProperty) (zip_code : String) (now : Int)
    (row : CachedRow) (hb : buildRow p zip_code now = some row) :
    row.zip_code = zip_code ∧ row.last_updated = now ∧
    row.bedrooms = cacheBedrooms p ∧ row.bathrooms = cacheBathrooms p ∧
    row.sqft = cacheSqft p ∧ row.lot_acres = cacheLotAcres p ∧
    row.garage_cars = cacheGarage p ∧ row.year_built = cacheYearBuilt p ∧
    row.property_type = cacheType p ∧ row.price = cachePrice p ∧
    row.photo_url = cachePhoto p := by
  simp only [buildRow] at hb
  by_cases ha : cacheExtractAddress p = ""
  · rw [if_pos ha] at hb
    simp at hb
  · rw [if_neg ha] at hb
    simp only [Option.some.injEq] at hb
    subst hb
    exact ⟨rfl, rfl, rfl, rfl, rfl, rfl, rfl, rfl, rfl, rfl, rfl⟩

set_option maxHeartbeats 1000000 in
/-- C8 amended: on a cache miss the code does not re-run the cache-hit
pass; it matches over the API result list in list order with
street-number-priority bidirectional-substring matching (stripping
designators, without the bare `d`, from the property side).  When both
passes find the single cached record, the miss-path record agrees with the
cache-pass record on every field except `address`: both copy the same
extraction of the API record, but the miss path rebuilds `address` from
the API location fields (falling back to the query) while the cache pass
echoes the query address. -/
theorem miss_path_amended (p : ApiProperty) (address zip_code : String) (now : Int)
    (r r' : PropertyRecord)
    (h1 : lookup_address_miss [p] address zip_code = some r)
    (h2 : lookup_cached_property (cache_properties [] [p] zip_code now) now
      address zip_code = some r') :
    r.bedrooms = r'.bedrooms ∧ r.bathrooms = r'.bathrooms ∧
    r.square_feet = r'.square_feet ∧ r.lot_acres = r'.lot_acres ∧
    r.garage_cars = r'.garage_cars ∧ r.year_built = r'.year_built ∧
    r.property_type = r'.property_type ∧ r.price = r'.price ∧
    r.photo_url = r'.photo_url ∧ r'.address = address ∧
    r.address = (if fullAddressOf p = "" then address else fullAddressOf p) := by
  simp only [lookup_address_miss, Option.map_eq_some'] at h1
  obtain ⟨q, hfind, hrec⟩ := h1
  have hq : p = q := (List.mem_singleton.mp (List.mem_of_find?_eq_some hfind)).symm
  subst hq
  subst hrec
  cases hb : buildRow p zip_code now with
  | none =>
    exfalso
    rw [show cache_properties [] [p] zip_code now = [] from by
      simp [cache_properties, hb]] at h2
    simp [lookup_cached_property, freshRowsByZip] at h2
  | some row =>
    obtain ⟨hz, hl, hbed, hbath, hsq, hlot, hgar, hyear, htype, hprice, hphoto⟩ :=
      buildRow_fields p zip_code now row hb
    rw [show cache_properties [] [p] zip_code now = [row] from by
      simp [cache_properties, hb, upsertRow]] at h2
    simp only [lookup_cached_property, Option.map_eq_some'] at h2
    obtain ⟨row', hfind2, hrec2⟩ := h2
    have hrow' : row' = row := by
      have hm := List.mem_of_find?_eq_some hfind2
      rw [freshRowsByZip, List.mem_insertionSort] at hm
      exact List.mem_singleton.mp (List.mem_filter.mp hm).1
    rw [hrow'] at hrec2
    subst hrec2
    refine ⟨?_, ?_, ?_, ?_, ?_, ?_, ?_, ?_, ?_, rfl, rfl⟩
    · show mainBedrooms p = row.bedrooms
      rw [hbed]; rfl
    · show pyIntCoerce (mainBathrooms p) = row.bathrooms
      rw [pyIntCoerce_eq, hbath]; rfl
    · show mainSqft p = row.sqft
      rw [hsq]; rfl
    · show mainLotAcres p = row.lot_acres
      rw [hlot]; rfl
    · show mainGarage p = row.garage_cars
      rw [hgar]; rfl
    · show mainYearBuilt p = row.year_built
      rw [hyear]; rfl
    · show mainType p = row.property_type
      rw [htype]; rfl
    · show mainPrice p = row.price
      rw [hprice]; rfl
    · show mainPhoto p = row.photo_url
      rw [hphoto]; rfl

/-- The record the miss path returns for `exApiProp`. -/
def exMissRec : PropertyRecord :=
  { address := "100 Main St, Springfield, IL 62704", bedrooms := 3, bathrooms := 0,
    square_feet := 0, lot_acres := 0, garage_cars := 0, year_built := none,
    property_type := "Unknown", price := none, photo_url := none }

/-- The record the cache-hit pass returns for the same query. -/
def exCacheRec : PropertyRecord :=
  { exMissRec with address := "100 Main St Springfield IL 62704" }

/-- Witness for the amended C8 at the concrete counterexample inputs. -/
theorem miss_path_amended_witness :
    exMissRec.bedrooms = exCacheRec.bedrooms ∧
    exMissRec.bathrooms = exCacheRec.bathrooms ∧
    exMissRec.square_feet = exCacheRec.square_feet ∧
    exMissRec.lot_acres = exCacheRec.lot_acres ∧
    exMissRec.garage_cars = exCacheRec.garage_cars ∧
    exMissRec.year_built = exCacheRec.year_built ∧
    exMissRec.property_type = exCacheRec.property_type ∧
    exMissRec.price = exCacheRec.price ∧
    exMissRec.photo_url = exCacheRec.photo_url ∧
    exCacheRec.address = "100 Main St Springfield IL 62704" ∧
    exMissRec.address =
      (if fullAddressOf exApiProp = "" then "100 Main St Springfield IL 62704"
       else fullAddressOf exApiProp) :=
  miss_path_amended exApiProp "100 Main St Springfield IL 62704" "62704" 0
    exMissRec exCacheRec (by with_unfolding_all decide) (by with_unfolding_all decide)
